import Mathlib

/-!
Shallow embedding of the gomoku SockJS game server
(src/endpoints/game/server.py) and verification of its specification.

Each channel handler's `on_message` / `on_close` coroutine is embedded as a
pure function from the handler state, the redis-backed store state and the
inbound (already JSON-decoded) message to a `Result`: the ordered list of
outbound events it emits, the updated store and handler state, and the
uncaught Python exception, if any.  The `BaseConnection` base class, the
`login_required` decorator and the outbound primitives (`send_error`,
`send_channel`, `broadcast_all_channel`, `get_games`, `get_player`,
`create_player`) live outside src/; those are modelled from the spec and
carry a doc comment saying so.
-/

namespace GomokuServer

/-- A JSON-decoded Python value as it appears in an inbound message dict
(`message.get(...)` returns `None` when the key is absent). -/
inductive PyVal where
  | none
  | str (s : String)
  | int (n : Int)
  | bool (b : Bool)
  deriving DecidableEq, Repr

/-- The Python exceptions the embedded code can raise. -/
inductive PyExc where
  | valueError
  | typeError
  | attributeError
  deriving DecidableEq, Repr

/-- Python `str()` of a decoded value, as applied when the value is
interpolated into a redis key, a redis command argument or a format string. -/
def pyStr : PyVal → String
  | .none => "None"
  | .str s => s
  | .int n => toString n
  | .bool b => if b then "True" else "False"

/-- Accumulate a run of decimal digits; fails on any non-digit character. -/
def decDigitsAux : List Char → Nat → Option Nat
  | [], acc => some acc
  | c :: cs, acc =>
      if c.isDigit then decDigitsAux cs (acc * 10 + (c.toNat - 48)) else Option.none

/-- A non-empty all-digit character run, as a number. -/
def decDigits (cs : List Char) : Option Nat :=
  if cs.isEmpty then Option.none else decDigitsAux cs 0

/-- Python `int(s)` on a string: optional surrounding whitespace, optional
sign, then decimal digits; anything else raises `ValueError`. -/
def parseIntStr (s : String) : Option Int :=
  match s.trim.toList with
  | '-' :: rest => (decDigits rest).map (fun n => -(n : Int))
  | '+' :: rest => (decDigits rest).map (fun n => (n : Int))
  | cs => (decDigits cs).map (fun n => (n : Int))

/-- Python `int(v)` on a decoded JSON value: ints pass through, bools coerce,
non-numeric strings raise `ValueError`, and `None` (an absent key) raises
`TypeError` — which the `except ValueError` in `GameCreateConnection` does
not catch. -/
def pyInt : PyVal → Except PyExc Int
  | .int n => .ok n
  | .bool b => .ok (if b then 1 else 0)
  | .str s =>
      match parseIntStr s with
      | some n => .ok n
      | Option.none => .error .valueError
  | .none => .error .typeError

/-- JSON documents, for the payloads built with `json.dumps`. -/
inductive Json where
  | null
  | jb (b : Bool)
  | ji (n : Int)
  | js (s : String)
  | jarr (xs : List Json)
  | jobj (fs : List (String × Json))
  deriving Repr

/-- A decoded message value embedded into an outbound JSON payload. -/
def pyToJson : PyVal → Json
  | .none => .null
  | .str s => .js s
  | .int n => .ji n
  | .bool b => .jb b

/-- Outbound effects a handler can perform, in emission order.
`send` replies on the handler's own channel; `sendError` is
`BaseConnection.send_error` (modelled from the spec: an error response on the
same channel carrying the given payload); `sendChannel` sends on a sibling
channel of the same connection; `broadcastAll` is
`BaseConnection.broadcast_all_channel` (modelled from the spec: fan-out to
every currently-open handler instance of the named channel); `toPlayer` is a
point-to-point send via `get_player(name).send_channel(...)`. -/
inductive Event where
  | send (j : Json)
  | sendError (j : Json)
  | sendChannel (ch : String) (j : Json)
  | broadcastAll (ch : String) (j : Json)
  | toPlayer (name : String) (ch : String) (j : Json)
  deriving Repr

/-- The hash stored at `game:id:<counter>` by `GameCreateConnection`. -/
structure GameRecord where
  creator : String
  title : String
  dimensions : Int
  lineup : Int
  color : PyVal
  deriving DecidableEq, Repr

/-- The slice of the redis keyspace the server touches: the
`player:id:<secret> → username` keys, the `player:all` set, the
`game:counter` atomic counter and the `game:id:<n>` hashes. -/
structure Store where
  playerId : List (String × String)
  playerAll : List String
  gameCounter : Nat
  games : List (Nat × GameRecord)
  deriving DecidableEq, Repr

/-- The empty redis state. -/
def emptyStore : Store := { playerId := [], playerAll := [], gameCounter := 0, games := [] }

/-- Per-(connection, channel) handler state: the claimed identity, the secret
token and the authenticated flag (`BaseConnection.is_logged`, modelled from
the spec: true exactly once the connection completed the identity claim). -/
structure Handler where
  username : Option String
  secret : Option String
  is_logged : Bool
  deriving DecidableEq, Repr

/-- A handler of a connection that has not authenticated. -/
def freshHandler : Handler := { username := Option.none, secret := Option.none, is_logged := false }

/-- Everything one `on_message` / `on_close` run produces: emitted events in
order, the store and handler afterwards, and an uncaught exception if the
coroutine crashed (events already emitted before the crash stay emitted). -/
structure Result where
  events : List Event
  store : Store
  handler : Handler
  exc : Option PyExc
  deriving Repr

/-- Python `message.get(key)` on the decoded JSON dict: `None` when absent. -/
def msgGet (m : List (String × PyVal)) (k : String) : PyVal :=
  match m.find? (fun p => p.1 == k) with
  | some p => p.2
  | Option.none => .none

/-- redis `SISMEMBER player:all x`. -/
def sismember (st : Store) (x : String) : Bool := st.playerAll.contains x

/-- redis `SADD player:all x` (idempotent). -/
def saddPlayer (st : Store) (x : String) : Store :=
  if st.playerAll.contains x then st else { st with playerAll := x :: st.playerAll }

/-- redis `SREM player:all x`. -/
def sremPlayer (st : Store) (x : String) : Store :=
  { st with playerAll := st.playerAll.filter (fun y => y != x) }

/-- redis `SET player:id:<secret> name` (overwrites). -/
def setPlayerId (st : Store) (secret name : String) : Store :=
  { st with playerId := (secret, name) :: st.playerId.filter (fun p => p.1 != secret) }

/-- redis `DEL player:id:<secret>`. -/
def delPlayerId (st : Store) (secret : String) : Store :=
  { st with playerId := st.playerId.filter (fun p => p.1 != secret) }

/-- Look up the name stored under `player:id:<secret>`. -/
def lookupSecret (st : Store) (secret : String) : Option String :=
  match st.playerId.find? (fun p => p.1 == secret) with
  | some p => some p.2
  | Option.none => Option.none

/-- `UsernameChoiceConnection.on_message`.  The `secret` argument stands for
the freshly generated token `md5(str(uuid4())).hexdigest()`; `create_player`
(modelled from the spec: `BaseConnection.create_player` is not under src/ —
it records the claimed identity on the handler, marks it authenticated and
registers it in the registry's identity index) is inlined as the updates to
the handler's `username` and `is_logged` fields. -/
def usernameChoice_onMessage (secret : String) (h : Handler) (st : Store)
    (msg : List (String × PyVal)) : Result :=
  let username := msgGet msg "username"
  let isMember := sismember st (pyStr username)
  if !isMember then
    let h1 : Handler := { h with username := some (pyStr username), is_logged := true,
                                 secret := some secret }
    let st1 := setPlayerId st secret (pyStr username)
    let st2 := saddPlayer st1 (pyStr username)
    let answer := Json.jobj [("status", .js "ok"), ("username", pyToJson username),
                             ("secret", .js secret)]
    { events := [.send answer], store := st2, handler := h1, exc := Option.none }
  else
    { events := [.sendError (.js "Someone already has that username.")],
      store := st, handler := h, exc := Option.none }

/-- `UsernameChoiceConnection.on_close`: if logged in, delete
`player:id:<secret>` and `SREM player:all username`. -/
def usernameChoice_onClose (h : Handler) (st : Store) : Store :=
  if h.is_logged then
    sremPlayer (delPlayerId st (h.secret.getD "")) (h.username.getD "")
  else st

/-- Modelled from the spec: the `login_required` decorator (decorators.py is
not under src/) replies with an authentication-required error and does not
invoke the wrapped callback body when the handler is unauthenticated. -/
def authFailure (h : Handler) (st : Store) : Result :=
  { events := [.sendError (.js "Authentication required")],
    store := st, handler := h, exc := Option.none }

/-- Modelled from the spec: the `login_required` guard wrapping a protected
channel's callback body. -/
def login_required (h : Handler) (st : Store) (body : Result) : Result :=
  if h.is_logged then body else authFailure h st

/-- Modelled from the spec: `BaseConnection.get_games` (not under src/)
renders the current listing of stored game resources. -/
def getGames (st : Store) : Json :=
  .jarr (st.games.map (fun g => .jobj [("id", .ji (g.1 : Int)), ("title", .js g.2.title)]))

/-- `GamesListConnection.on_message`: protected; sends the games listing. -/
def gamesList_onMessage (h : Handler) (st : Store)
    (msg : List (String × PyVal)) : Result :=
  login_required h st
    { events := [.send (getGames st)], store := st, handler := h, exc := Option.none }

/-- The three placeholder cells hard-coded in both `GamesJoinConnection` and
`GameCreateConnection`. -/
def boardCells : Json :=
  .jarr [.jobj [("x", .js "2"), ("y", .js "2"), ("color", .js "white")],
         .jobj [("x", .js "1"), ("y", .js "1"), ("color", .js "black")],
         .jobj [("x", .js "4"), ("y", .js "1"), ("color", .js "white")]]

/-- The fixed placeholder board model sent by `GamesJoinConnection`. -/
def joinModel : Json := .jobj [("dimensions", .ji 3), ("cells", boardCells)]

/-- `GamesJoinConnection.on_message`.  `reg` is the registry's identity
index (the names with a live handler); `get_player` (modelled from the spec:
point-to-point lookup by identity in `BaseConnection`, not under src/)
returns that player's handler, so when `"vaxXxa"` has no live handler the
attribute access on the lookup result raises and the coroutine crashes after
the earlier sends already went out.  The `if True:` guard is the source's. -/
def gamesJoin_onMessage (reg : List String) (h : Handler) (st : Store)
    (msg : List (String × PyVal)) : Result :=
  login_required h st
    (let game_id := msgGet msg "id"
     if True then
       let answer := Json.jobj [("status", .js "ok"), ("model", joinModel)]
       let welcome := Json.jobj [("msg", .js ("Welcome to the game #" ++ pyStr game_id))]
       if reg.contains "vaxXxa" then
         { events := [.send answer, .sendChannel "note" welcome,
                      .toPlayer "vaxXxa" "note" (.jobj [("msg", .js "New user!!!")])],
           store := st, handler := h, exc := Option.none }
       else
         { events := [.send answer, .sendChannel "note" welcome],
           store := st, handler := h, exc := some .attributeError }
     else
       { events := [.sendError (.js "Can not connect to this game. Try another one.")],
         store := st, handler := h, exc := Option.none })

/-- The title format string
`'{0} ({1}x{1}, {2} in row) [{3}]'.format(username, dimensions, lineup, color)`. -/
def gameTitle (u : String) (dimensions lineup : Int) (color : PyVal) : String :=
  u ++ " (" ++ toString dimensions ++ "x" ++ toString dimensions ++ ", "
    ++ toString lineup ++ " in row) [" ++ pyStr color ++ "]"

/-- The board model `GameCreateConnection` replies with: the requested
dimensions and the placeholder cells. -/
def gameModel (dimensions : Int) : Json :=
  .jobj [("dimensions", .ji dimensions), ("cells", boardCells)]

/-- The callback body of `GameCreateConnection.on_message` (inside the
`login_required` guard).  The `try`/`except ValueError` catches only
`ValueError` from the two `int(...)` calls; a `TypeError` (absent key,
hence `int(None)`) propagates and crashes the coroutine before any reply. -/
def gameCreate_body (h : Handler) (st : Store)
    (msg : List (String × PyVal)) : Result :=
  match pyInt (msgGet msg "dimensions") with
  | .error .valueError =>
      { events := [.sendError (.jarr [.js "Wrong config for the game."])],
        store := st, handler := h, exc := Option.none }
  | .error e => { events := [], store := st, handler := h, exc := some e }
  | .ok dimensions =>
    match pyInt (msgGet msg "lineup") with
    | .error .valueError =>
        { events := [.sendError (.jarr [.js "Wrong config for the game."])],
          store := st, handler := h, exc := Option.none }
    | .error e => { events := [], store := st, handler := h, exc := some e }
    | .ok lineup =>
      let color := msgGet msg "color"
      if lineup > dimensions then
        { events := [.sendError (.jarr [.js "Lineup must be less than dimensions."])],
          store := st, handler := h, exc := Option.none }
      else
        let game_counter := st.gameCounter + 1
        let data : GameRecord :=
          { creator := h.username.getD "", title := gameTitle (h.username.getD "") dimensions lineup color,
            dimensions := dimensions, lineup := lineup, color := color }
        let st1 := { st with gameCounter := game_counter, games := (game_counter, data) :: st.games }
        { events := [.send (Json.jobj [("status", .js "ok"), ("model", gameModel dimensions)]),
                     .broadcastAll "games_list" (getGames st1),
                     .sendChannel "note" (.jobj [("msg", .js "Waiting for the opponent...")])],
          store := st1, handler := h, exc := Option.none }

/-- `GameCreateConnection.on_message`: the `login_required` guard around the
creation body. -/
def gameCreate_onMessage (h : Handler) (st : Store)
    (msg : List (String × PyVal)) : Result :=
  login_required h st (gameCreate_body h st msg)

/-- `GameActionConnection.on_message`: protected; forwards
`{'winner': True}` on the connection's `game_finish` channel. -/
def gameAction_onMessage (h : Handler) (st : Store)
    (msg : List (String × PyVal)) : Result :=
  login_required h st
    { events := [.sendChannel "game_finish" (.jobj [("winner", .jb true)])],
      store := st, handler := h, exc := Option.none }

/-- Modelled from the spec: `broadcast_all_channel` fan-out — every
currently-connected handler instance on the channel receives the payload. -/
def broadcastDeliver (participants : List String) (j : Json) : List (String × Json) :=
  participants.map (fun p => (p, j))

/-- A sequence of identity-claim attempts for the same name, each from a
distinct fresh connection, processed in arrival order (one `on_message` runs
to completion before the next, per the cooperative scheduling model); the
list supplies one fresh secret token per attempt. -/
def runClaims (name : String) (secrets : List String) (st : Store) : List Result :=
  match secrets with
  | [] => []
  | s :: rest =>
    let r := usernameChoice_onMessage s freshHandler st [("username", .str name)]
    r :: runClaims name rest r.store

/-- Whether a run of a handler replied on its own channel with an object
whose leading field is `status: ok`. -/
def isOkResult (r : Result) : Bool :=
  r.events.any (fun e =>
    match e with
    | .send (Json.jobj (("status", Json.js "ok") :: _)) => true
    | _ => false)

/-- An authenticated handler used to instantiate theorems at concrete inputs. -/
def aliceHandler : Handler := { username := some "alice", secret := some "s1", is_logged := true }

/-- The reply of a rejected duplicate claim: the error response with the
source's message text, state untouched. -/
def errClaimResult (st : Store) : Result :=
  { events := [.sendError (.js "Someone already has that username.")],
    store := st, handler := freshHandler, exc := Option.none }

/-- The store after a successful creation: counter bumped and the new record
stored under the new counter value. -/
def createdStore (st : Store) (u : String) (dims lineup : Int) (cv : PyVal) : Store :=
  { st with gameCounter := st.gameCounter + 1,
            games := (st.gameCounter + 1,
              { creator := u, title := gameTitle u dims lineup cv,
                dimensions := dims, lineup := lineup, color := cv }) :: st.games }

lemma msgGet_username (v : PyVal) : msgGet [("username", v)] "username" = v := rfl

lemma msgGet_create_dimensions (dv lv cv : PyVal) :
    msgGet [("dimensions", dv), ("lineup", lv), ("color", cv)] "dimensions" = dv := rfl

lemma msgGet_create_lineup (dv lv cv : PyVal) :
    msgGet [("dimensions", dv), ("lineup", lv), ("color", cv)] "lineup" = lv := rfl

lemma msgGet_create_color (dv lv cv : PyVal) :
    msgGet [("dimensions", dv), ("lineup", lv), ("color", cv)] "color" = cv := rfl

/-- The reply and state of a successful claim of `name` with token `s`. -/
def okClaimResult (s name : String) (st : Store) : Result :=
  { events := [.send (Json.jobj [("status", .js "ok"), ("username", .js name),
                                 ("secret", .js s)])],
    store := saddPlayer (setPlayerId st s name) name,
    handler := { username := some name, secret := some s, is_logged := true },
    exc := Option.none }

lemma isOk_okClaimResult (s name : String) (st : Store) :
    isOkResult (okClaimResult s name st) = true := rfl

lemma claim_absent (s name : String) (h : Handler) (st : Store)
    (habs : st.playerAll.contains name = false) :
    usernameChoice_onMessage s h st [("username", PyVal.str name)] =
      okClaimResult s name st := by
  unfold okClaimResult
  have habs1 : name ∉ st.playerAll := by simpa using habs
  simp [usernameChoice_onMessage, msgGet_username, sismember, pyStr, habs1, pyToJson]

lemma claim_member (s name : String) (st : Store)
    (hm : st.playerAll.contains name = true) :
    usernameChoice_onMessage s freshHandler st [("username", PyVal.str name)] =
      errClaimResult st := by
  have hm1 : name ∈ st.playerAll := by simpa using hm
  simp [usernameChoice_onMessage, msgGet_username, sismember, pyStr, hm1, errClaimResult]

lemma claims_all_member (name : String) (secrets : List String) (st : Store)
    (hm : st.playerAll.contains name = true) :
    runClaims name secrets st = secrets.map (fun _ => errClaimResult st) := by
  induction secrets with
  | nil => rfl
  | cons s rest ih =>
      simp only [runClaims, claim_member s name st hm, List.map]
      exact congrArg _ ih

lemma isOk_errClaimResult (st : Store) : isOkResult (errClaimResult st) = false := rfl

lemma filter_err_claims (st : Store) (l : List String) :
    (l.map (fun _ => errClaimResult st)).filter isOkResult = [] := by
  induction l with
  | nil => rfl
  | cons a l ih => simp [isOk_errClaimResult, ih]

lemma contains_saddPlayer_self (st : Store) (x : String) :
    (saddPlayer st x).playerAll.contains x = true := by
  by_cases hx : x ∈ st.playerAll
  · simp [saddPlayer, hx]
  · simp [saddPlayer, hx]

lemma find?_filter_ne (s : String) (l : List (String × String)) :
    (l.filter (fun p => p.1 != s)).find? (fun p => p.1 == s) = Option.none := by
  induction l with
  | nil => rfl
  | cons a l ih =>
      by_cases ha : a.1 = s
      · simp [List.filter_cons, ha, ih]
      · simp [List.filter_cons, List.find?_cons, ha, ih]

lemma contains_filter_ne (u : String) (l : List String) :
    (l.filter (fun y => y != u)).contains u = false := by
  induction l with
  | nil => rfl
  | cons a l ih =>
      by_cases ha : a = u
      · simp [List.filter_cons, ha, ih]
      · simp [List.filter_cons, ha, ih, Ne.symm ha]

lemma gameCreate_success (h : Handler) (st : Store) (u : String)
    (dims lineup : Int) (dv lv cv : PyVal)
    (hl : h.is_logged = true) (hu : h.username = some u)
    (hd : pyInt dv = .ok dims) (hlv : pyInt lv = .ok lineup) (hle : lineup ≤ dims) :
    gameCreate_onMessage h st [("dimensions", dv), ("lineup", lv), ("color", cv)] =
      { events := [Event.send (Json.jobj [("status", .js "ok"), ("model", gameModel dims)]),
                   Event.broadcastAll "games_list" (getGames (createdStore st u dims lineup cv)),
                   Event.sendChannel "note" (.jobj [("msg", .js "Waiting for the opponent...")])],
        store := createdStore st u dims lineup cv, handler := h, exc := Option.none } := by
  simp only [gameCreate_onMessage, login_required, hl, if_true, gameCreate_body,
             msgGet_create_dimensions, msgGet_create_lineup, msgGet_create_color,
             hd, hlv, hu]
  rw [if_neg (not_lt.mpr hle)]
  simp [createdStore]

lemma saddPlayer_playerId (st : Store) (x : String) :
    (saddPlayer st x).playerId = st.playerId := by
  unfold saddPlayer; split <;> rfl

/-- C1: on the login channel, a claim for a name absent from the uniqueness
set allocates a new secret token, stores the mapping secret → name, adds the
name to the uniqueness set, marks the handler authenticated, and replies with
a status-ok object carrying the claimed name and the new secret (the source's
JSON key for the spec's `name` field is `username`). -/
theorem C1_claim_success (secret u : String) (h : Handler) (st : Store)
    (habs : st.playerAll.contains u = false) :
    (usernameChoice_onMessage secret h st [("username", PyVal.str u)]).events =
      [Event.send (Json.jobj [("status", .js "ok"), ("username", .js u),
                              ("secret", .js secret)])] ∧
    lookupSecret (usernameChoice_onMessage secret h st [("username", PyVal.str u)]).store
      secret = some u ∧
    (usernameChoice_onMessage secret h st
      [("username", PyVal.str u)]).store.playerAll.contains u = true ∧
    (usernameChoice_onMessage secret h st [("username", PyVal.str u)]).handler.is_logged
      = true := by
  rw [claim_absent secret u h st habs]
  refine ⟨rfl, ?_, contains_saddPlayer_self _ u, rfl⟩
  simp [lookupSecret, okClaimResult, saddPlayer_playerId, setPlayerId]

/-- C1 witness: claiming "alice" against the empty store. -/
theorem C1_claim_success_witness :
    emptyStore.playerAll.contains "alice" = false ∧
    ((usernameChoice_onMessage "s1" freshHandler emptyStore
        [("username", PyVal.str "alice")]).events =
      [Event.send (Json.jobj [("status", .js "ok"), ("username", .js "alice"),
                              ("secret", .js "s1")])] ∧
     lookupSecret (usernameChoice_onMessage "s1" freshHandler emptyStore
        [("username", PyVal.str "alice")]).store "s1" = some "alice" ∧
     (usernameChoice_onMessage "s1" freshHandler emptyStore
        [("username", PyVal.str "alice")]).store.playerAll.contains "alice" = true ∧
     (usernameChoice_onMessage "s1" freshHandler emptyStore
        [("username", PyVal.str "alice")]).handler.is_logged = true) :=
  ⟨rfl, C1_claim_success "s1" "alice" freshHandler emptyStore rfl⟩

/-- C3: on each protected channel (games_list, games_join, game_create,
game_action), a message from an unauthenticated connection yields exactly the
authentication-required error result: the callback body is never invoked, the
store is untouched, and the client receives the auth error. -/
theorem C3_auth_gate (reg : List String) (h : Handler) (st : Store)
    (msg : List (String × PyVal)) (hl : h.is_logged = false) :
    gamesList_onMessage h st msg = authFailure h st ∧
    gamesJoin_onMessage reg h st msg = authFailure h st ∧
    gameCreate_onMessage h st msg = authFailure h st ∧
    gameAction_onMessage h st msg = authFailure h st ∧
    (authFailure h st).events = [Event.sendError (Json.js "Authentication required")] ∧
    (authFailure h st).store = st := by
  refine ⟨?_, ?_, ?_, ?_, rfl, rfl⟩ <;>
    simp [gamesList_onMessage, gamesJoin_onMessage, gameCreate_onMessage,
          gameAction_onMessage, login_required, hl]

/-- C3 witness: a fresh (unauthenticated) handler on each protected channel. -/
theorem C3_auth_gate_witness :
    freshHandler.is_logged = false ∧
    (gamesList_onMessage freshHandler emptyStore [] = authFailure freshHandler emptyStore ∧
     gamesJoin_onMessage [] freshHandler emptyStore [] = authFailure freshHandler emptyStore ∧
     gameCreate_onMessage freshHandler emptyStore [] = authFailure freshHandler emptyStore ∧
     gameAction_onMessage freshHandler emptyStore [] = authFailure freshHandler emptyStore ∧
     (authFailure freshHandler emptyStore).events =
       [Event.sendError (Json.js "Authentication required")] ∧
     (authFailure freshHandler emptyStore).store = emptyStore) :=
  ⟨rfl, C3_auth_gate [] freshHandler emptyStore [] rfl⟩

/-- C5: an authenticated creation request whose lineup strictly exceeds its
dimensions is answered with the validation error only; the store (counter and
game records included) is unchanged. -/
theorem C5_lineup_exceeds_rejected (h : Handler) (st : Store) (dims lineup : Int)
    (dv lv cv : PyVal) (hl : h.is_logged = true)
    (hd : pyInt dv = .ok dims) (hlv : pyInt lv = .ok lineup) (hgt : dims < lineup) :
    gameCreate_onMessage h st [("dimensions", dv), ("lineup", lv), ("color", cv)] =
      { events := [Event.sendError (Json.jarr [Json.js "Lineup must be less than dimensions."])],
        store := st, handler := h, exc := Option.none } := by
  simp only [gameCreate_onMessage, login_required, hl, if_true, gameCreate_body,
             msgGet_create_dimensions, msgGet_create_lineup, msgGet_create_color, hd, hlv]
  rw [if_pos hgt]

/-- C5 witness: dimensions 3, lineup 5. -/
theorem C5_lineup_exceeds_rejected_witness :
    aliceHandler.is_logged = true ∧
    pyInt (PyVal.int 3) = .ok 3 ∧ pyInt (PyVal.int 5) = .ok 5 ∧ (3 : Int) < 5 ∧
    gameCreate_onMessage aliceHandler emptyStore
        [("dimensions", PyVal.int 3), ("lineup", PyVal.int 5), ("color", PyVal.str "white")] =
      { events := [Event.sendError (Json.jarr [Json.js "Lineup must be less than dimensions."])],
        store := emptyStore, handler := aliceHandler, exc := Option.none } :=
  ⟨rfl, rfl, rfl, by decide,
   C5_lineup_exceeds_rejected aliceHandler emptyStore 3 5 (PyVal.int 3) (PyVal.int 5)
     (PyVal.str "white") rfl rfl rfl (by decide)⟩

/-- C6 (code-bug evaluation): a creation message with an absent `dimensions`
parameter makes `int(None)` raise `TypeError`, which the `except ValueError`
does not catch: the coroutine crashes with no error response emitted and no
counter increment or record store. -/
theorem C6_absent_param_crashes :
    gameCreate_onMessage aliceHandler emptyStore [] =
      { events := [], store := emptyStore, handler := aliceHandler,
        exc := some PyExc.typeError } := rfl

/-- C7: a valid authenticated creation (integer parameters, lineup ≤
dimensions) increments the counter by exactly one, stores the record under
the new counter value with creator, title, dimensions, lineup and color,
replies status ok to the creator, and broadcasts the updated listing, which
every currently-connected games_list handler receives. -/
theorem C7_create_success (h : Handler) (st : Store) (u : String)
    (dims lineup : Int) (dv lv cv : PyVal) (parts : List String)
    (hl : h.is_logged = true) (hu : h.username = some u)
    (hd : pyInt dv = .ok dims) (hlv : pyInt lv = .ok lineup) (hle : lineup ≤ dims) :
    gameCreate_onMessage h st [("dimensions", dv), ("lineup", lv), ("color", cv)] =
      { events := [Event.send (Json.jobj [("status", .js "ok"), ("model", gameModel dims)]),
                   Event.broadcastAll "games_list" (getGames (createdStore st u dims lineup cv)),
                   Event.sendChannel "note" (.jobj [("msg", .js "Waiting for the opponent...")])],
        store := createdStore st u dims lineup cv, handler := h, exc := Option.none } ∧
    (createdStore st u dims lineup cv).gameCounter = st.gameCounter + 1 ∧
    (createdStore st u dims lineup cv).games.find? (fun g => g.1 == st.gameCounter + 1) =
      some (st.gameCounter + 1,
        { creator := u, title := gameTitle u dims lineup cv,
          dimensions := dims, lineup := lineup, color := cv }) ∧
    ∀ p ∈ parts, (p, getGames (createdStore st u dims lineup cv)) ∈
      broadcastDeliver parts (getGames (createdStore st u dims lineup cv)) := by
  refine ⟨gameCreate_success h st u dims lineup dv lv cv hl hu hd hlv hle, rfl, ?_, ?_⟩
  · simp [createdStore, List.find?_cons]
  · intro p hp
    simpa [broadcastDeliver] using hp

/-- C7 witness: dimensions 4, lineup 3, two connected games_list handlers. -/
theorem C7_create_success_witness :
    aliceHandler.is_logged = true ∧ aliceHandler.username = some "alice" ∧
    pyInt (PyVal.int 4) = .ok 4 ∧ pyInt (PyVal.int 3) = .ok 3 ∧ (3 : Int) ≤ 4 ∧
    (gameCreate_onMessage aliceHandler emptyStore
        [("dimensions", PyVal.int 4), ("lineup", PyVal.int 3), ("color", PyVal.str "white")] =
      { events := [Event.send (Json.jobj [("status", .js "ok"), ("model", gameModel 4)]),
                   Event.broadcastAll "games_list"
                     (getGames (createdStore emptyStore "alice" 4 3 (PyVal.str "white"))),
                   Event.sendChannel "note" (.jobj [("msg", .js "Waiting for the opponent...")])],
        store := createdStore emptyStore "alice" 4 3 (PyVal.str "white"),
        handler := aliceHandler, exc := Option.none } ∧
     (createdStore emptyStore "alice" 4 3 (PyVal.str "white")).gameCounter =
       emptyStore.gameCounter + 1 ∧
     (createdStore emptyStore "alice" 4 3 (PyVal.str "white")).games.find?
         (fun g => g.1 == emptyStore.gameCounter + 1) =
       some (emptyStore.gameCounter + 1,
         { creator := "alice", title := gameTitle "alice" 4 3 (PyVal.str "white"),
           dimensions := 4, lineup := 3, color := PyVal.str "white" }) ∧
     ∀ p ∈ ["alice", "bob"],
       (p, getGames (createdStore emptyStore "alice" 4 3 (PyVal.str "white"))) ∈
         broadcastDeliver ["alice", "bob"]
           (getGames (createdStore emptyStore "alice" 4 3 (PyVal.str "white")))) :=
  ⟨rfl, rfl, rfl, rfl, by decide,
   C7_create_success aliceHandler emptyStore "alice" 4 3 (PyVal.int 4) (PyVal.int 3)
     (PyVal.str "white") ["alice", "bob"] rfl rfl rfl rfl (by decide)⟩

/-- C8: every game_action message from an authenticated client makes the
handler send `{'winner': True}` on the same connection's game_finish channel,
and nothing else. -/
theorem C8_action_forwards_finish (h : Handler) (st : Store)
    (msg : List (String × PyVal)) (hl : h.is_logged = true) :
    gameAction_onMessage h st msg =
      { events := [Event.sendChannel "game_finish" (Json.jobj [("winner", Json.jb true)])],
        store := st, handler := h, exc := Option.none } := by
  simp [gameAction_onMessage, login_required, hl]

/-- C8 witness: an authenticated handler, arbitrary concrete message. -/
theorem C8_action_forwards_finish_witness :
    aliceHandler.is_logged = true ∧
    gameAction_onMessage aliceHandler emptyStore [("x", PyVal.int 1)] =
      { events := [Event.sendChannel "game_finish" (Json.jobj [("winner", Json.jb true)])],
        store := emptyStore, handler := aliceHandler, exc := Option.none } :=
  ⟨rfl, C8_action_forwards_finish aliceHandler emptyStore [("x", PyVal.int 1)] rfl⟩

/-- C9: for every authenticated games_join message, whatever the supplied id
and registry state, the first emitted event is the status-ok reply with the
fixed placeholder board model, and no error response is ever emitted: the
`else` branch behind the constant-True guard is unreachable. -/
theorem C9_join_always_ok (reg : List String) (h : Handler) (st : Store)
    (msg : List (String × PyVal)) (hl : h.is_logged = true) :
    (gamesJoin_onMessage reg h st msg).events.head? =
      some (Event.send (Json.jobj [("status", Json.js "ok"), ("model", joinModel)])) ∧
    ∀ j, Event.sendError j ∉ (gamesJoin_onMessage reg h st msg).events := by
  by_cases hv : "vaxXxa" ∈ reg <;>
    constructor <;>
      simp [gamesJoin_onMessage, login_required, hl, hv]

/-- C9 witness: joining game 1 with an empty registry. -/
theorem C9_join_always_ok_witness :
    aliceHandler.is_logged = true ∧
    ((gamesJoin_onMessage [] aliceHandler emptyStore [("id", PyVal.int 1)]).events.head? =
      some (Event.send (Json.jobj [("status", Json.js "ok"), ("model", joinModel)])) ∧
     ∀ j, Event.sendError j ∉
       (gamesJoin_onMessage [] aliceHandler emptyStore [("id", PyVal.int 1)]).events) :=
  ⟨rfl, C9_join_always_ok [] aliceHandler emptyStore [("id", PyVal.int 1)] rfl⟩

/-- C10: the consistency check rejects only lineup strictly greater than
dimensions; with lineup equal to dimensions the creation proceeds and
succeeds (counter bumped, record stored, ok reply, listing broadcast),
despite the rejected case's error text reading "Lineup must be less than
dimensions." -/
theorem C10_equal_lineup_proceeds (h : Handler) (st : Store) (u : String) (n : Int)
    (dv lv cv : PyVal) (hl : h.is_logged = true) (hu : h.username = some u)
    (hd : pyInt dv = .ok n) (hlv : pyInt lv = .ok n) :
    gameCreate_onMessage h st [("dimensions", dv), ("lineup", lv), ("color", cv)] =
      { events := [Event.send (Json.jobj [("status", .js "ok"), ("model", gameModel n)]),
                   Event.broadcastAll "games_list" (getGames (createdStore st u n n cv)),
                   Event.sendChannel "note" (.jobj [("msg", .js "Waiting for the opponent...")])],
        store := createdStore st u n n cv, handler := h, exc := Option.none } :=
  gameCreate_success h st u n n dv lv cv hl hu hd hlv le_rfl

/-- C2 counterexample: two successive claims of "alice" from distinct fresh
connections — the second reply is the source's error message
"Someone already has that username.", not "name already taken". -/
theorem C2_message_text_counterexample :
    (runClaims "alice" ["s1", "s2"] emptyStore).map Result.events =
      [[Event.send (Json.jobj [("status", Json.js "ok"), ("username", Json.js "alice"),
                               ("secret", Json.js "s1")])],
       [Event.sendError (Json.js "Someone already has that username.")]] ∧
    "Someone already has that username." ≠ "name already taken" := by
  exact ⟨rfl, by decide⟩

/-- C2 (amended): for a sequence of claim attempts for the same initially
unclaimed name, each from a distinct fresh connection, exactly one attempt
succeeds with a status-ok reply; every other attempt receives the error reply
with message "Someone already has that username." and its handler remains
unauthenticated. -/
theorem C2_unique_claim (name : String) (secrets : List String) (st : Store)
    (habs : st.playerAll.contains name = false) (hne : secrets ≠ []) :
    ((runClaims name secrets st).filter isOkResult).length = 1 ∧
    ∀ r ∈ runClaims name secrets st, isOkResult r = false →
      r.events = [Event.sendError (Json.js "Someone already has that username.")] ∧
      r.handler.is_logged = false := by
  cases secrets with
  | nil => exact absurd rfl hne
  | cons s rest =>
    have hrun : runClaims name (s :: rest) st =
        usernameChoice_onMessage s freshHandler st [("username", PyVal.str name)] ::
          runClaims name rest (usernameChoice_onMessage s freshHandler st
            [("username", PyVal.str name)]).store := rfl
    rw [hrun, claim_absent s name freshHandler st habs]
    have hmem : (okClaimResult s name st).store.playerAll.contains name = true :=
      contains_saddPlayer_self _ name
    rw [claims_all_member name rest _ hmem]
    constructor
    · simp [List.filter_cons, isOk_okClaimResult, isOk_errClaimResult, filter_err_claims]
    · intro r hr hro
      rcases List.mem_cons.mp hr with h1 | h2
      · rw [h1, isOk_okClaimResult] at hro
        exact absurd hro (by simp)
      · rcases List.mem_map.mp h2 with ⟨a, _, ha⟩
        rw [← ha]
        exact ⟨rfl, rfl⟩

/-- C2 witness: two claims of "alice" against the empty store. -/
theorem C2_unique_claim_witness :
    emptyStore.playerAll.contains "alice" = false ∧ (["s1", "s2"] ≠ ([] : List String)) ∧
    (((runClaims "alice" ["s1", "s2"] emptyStore).filter isOkResult).length = 1 ∧
     ∀ r ∈ runClaims "alice" ["s1", "s2"] emptyStore, isOkResult r = false →
       r.events = [Event.sendError (Json.js "Someone already has that username.")] ∧
       r.handler.is_logged = false) :=
  ⟨rfl, by decide, C2_unique_claim "alice" ["s1", "s2"] emptyStore rfl (by decide)⟩

lemma find?_const_false {α : Type} (l : List α) :
    l.find? (fun _ => false) = Option.none := by
  induction l with
  | nil => rfl
  | cons a l ih => simp [List.find?_cons, ih]

/-- C4: closing a connection whose login handler is authenticated deletes the
secret → name key and removes the name from the uniqueness set, so the
identity claimed on that connection is afterwards absent from both. -/
theorem C4_close_releases_identity (h : Handler) (st : Store) (s u : String)
    (hl : h.is_logged = true) (hs : h.secret = some s) (hu : h.username = some u) :
    lookupSecret (usernameChoice_onClose h st) s = Option.none ∧
    (usernameChoice_onClose h st).playerAll.contains u = false := by
  simp only [usernameChoice_onClose, hl, hs, hu, if_true, Option.getD_some]
  constructor
  · simp [lookupSecret, sremPlayer, delPlayerId, find?_filter_ne, find?_const_false]
  · simp [sremPlayer, delPlayerId, contains_filter_ne]

/-- A store holding exactly the identity record of aliceHandler. -/
def aliceStore : Store :=
  { playerId := [("s1", "alice")], playerAll := ["alice"], gameCounter := 0, games := [] }

/-- C4 witness: closing aliceHandler's connection against aliceStore. -/
theorem C4_close_releases_identity_witness :
    aliceHandler.is_logged = true ∧ aliceHandler.secret = some "s1" ∧
    aliceHandler.username = some "alice" ∧
    (lookupSecret (usernameChoice_onClose aliceHandler aliceStore) "s1" = Option.none ∧
     (usernameChoice_onClose aliceHandler aliceStore).playerAll.contains "alice" = false) :=
  ⟨rfl, rfl, rfl,
   C4_close_releases_identity aliceHandler aliceStore "s1" "alice" rfl rfl rfl⟩

/-- C10 witness: dimensions 3, lineup 3. -/
theorem C10_equal_lineup_proceeds_witness :
    aliceHandler.is_logged = true ∧ aliceHandler.username = some "alice" ∧
    pyInt (PyVal.int 3) = .ok 3 ∧ pyInt (PyVal.int 3) = .ok 3 ∧
    gameCreate_onMessage aliceHandler emptyStore
        [("dimensions", PyVal.int 3), ("lineup", PyVal.int 3), ("color", PyVal.str "black")] =
      { events := [Event.send (Json.jobj [("status", .js "ok"), ("model", gameModel 3)]),
                   Event.broadcastAll "games_list"
                     (getGames (createdStore emptyStore "alice" 3 3 (PyVal.str "black"))),
                   Event.sendChannel "note" (.jobj [("msg", .js "Waiting for the opponent...")])],
        store := createdStore emptyStore "alice" 3 3 (PyVal.str "black"),
        handler := aliceHandler, exc := Option.none } :=
  ⟨rfl, rfl, rfl, rfl,
   C10_equal_lineup_proceeds aliceHandler emptyStore "alice" 3 (PyVal.int 3) (PyVal.int 3)
     (PyVal.str "black") rfl rfl rfl rfl⟩

end GomokuServer
